import Mathlib

/-!
Shallow embedding of the BIPV demo application (`src/public/js/viewer.js` and
the client submit script) for checking its specification.

The numeric code runs on JS doubles; we model the arithmetic over `ℝ`
(and over `ℚ` where the code only moves parsed decimal literals around).
-/

namespace BIPV

/-- 3D vector, modelling `THREE.Vector3` with real components. -/
structure Vec3 where
  x : ℝ
  y : ℝ
  z : ℝ

/-- `Vector3.sub` (componentwise difference, as in `subVectors`). -/
def Vec3.sub (a b : Vec3) : Vec3 :=
  ⟨a.x - b.x, a.y - b.y, a.z - b.z⟩

/-- `Vector3.dot`. -/
def Vec3.dot (a b : Vec3) : ℝ :=
  a.x * b.x + a.y * b.y + a.z * b.z

/-- `Vector3.cross` (right-handed cross product, as in `crossVectors`). -/
def Vec3.cross (a b : Vec3) : Vec3 :=
  ⟨a.y * b.z - a.z * b.y, a.z * b.x - a.x * b.z, a.x * b.y - a.y * b.x⟩

/-- `Vector3.length`: `sqrt(x*x + y*y + z*z)`. -/
noncomputable def Vec3.length (a : Vec3) : ℝ :=
  Real.sqrt (a.x * a.x + a.y * a.y + a.z * a.z)

/-- `Vector3.normalize`: `divideScalar(this.length() || 1)` — three.js guards a
zero length with `|| 1`, so the zero vector stays the zero vector. -/
noncomputable def Vec3.normalize (a : Vec3) : Vec3 :=
  let d := if a.length = 0 then 1 else a.length
  ⟨a.x / d, a.y / d, a.z / d⟩

/-- 3×3 matrix in row form, modelling `THREE.Matrix3`. -/
structure Mat3 where
  r1 : Vec3
  r2 : Vec3
  r3 : Vec3

/-- `Vector3.applyMatrix3`: ordinary matrix–vector product. -/
def Mat3.apply (m : Mat3) (v : Vec3) : Vec3 :=
  ⟨m.r1.dot v, m.r2.dot v, m.r3.dot v⟩

/-- The identity matrix (normal matrix of an untransformed mesh). -/
def Mat3.id : Mat3 :=
  ⟨⟨1, 0, 0⟩, ⟨0, 1, 0⟩, ⟨0, 0, 1⟩⟩

/-- `THREE.Triangle(a, b, c).getArea()`:
`0.5 * |(c − b) × (a − b)|` (three.js subtracts around vertex `b`). -/
noncomputable def triangleGetArea (a b c : Vec3) : ℝ :=
  ((c.sub b).cross (a.sub b)).length * 0.5

/-- Read `positions[i]` as the JS code does: the position attribute is a typed
array, an out-of-range index yields `undefined`, and the `THREE.Vector3`
constructor replaces an `undefined` component by its default `0`. -/
def posGet (l : List ℝ) (i : ℕ) : ℝ :=
  l.getD i 0

/-- `calculateSurfaceArea` (viewer.js lines 200–213): walk the flat position
buffer nine values at a time, building three `Vector3`s per step and summing
`THREE.Triangle.getArea()` over them.  The loop condition is `i < length`,
so a trailing group shorter than nine values is still processed, with its
missing components read as `0` (see `posGet`). -/
noncomputable def calculateSurfaceArea : List ℝ → ℝ
  | [] => 0
  | p@(_ :: _) =>
      triangleGetArea
        ⟨posGet p 0, posGet p 1, posGet p 2⟩
        ⟨posGet p 3, posGet p 4, posGet p 5⟩
        ⟨posGet p 6, posGet p 7, posGet p 8⟩
      + calculateSurfaceArea (p.drop 9)
termination_by l => l.length
decreasing_by
  rename_i head tail h
  subst h
  simp only [List.length_drop, List.length_cons]
  omega

/-- The area formula as the specification words it: for triangle
`(v1, v2, v3)`, `0.5 × |(v2 − v1) × (v3 − v1)|`. -/
noncomputable def specTriangleArea (v1 v2 v3 : Vec3) : ℝ :=
  0.5 * ((v2.sub v1).cross (v3.sub v1)).length

/-- Flatten a list of triangles into the position-buffer layout. -/
def flattenTris (ts : List (Vec3 × Vec3 × Vec3)) : List ℝ :=
  (ts.map fun t =>
    [t.1.x, t.1.y, t.1.z, t.2.1.x, t.2.1.y, t.2.1.z, t.2.2.x, t.2.2.y, t.2.2.z]).flatten

/-- The length of zero padding that rounds a buffer length up to the next
multiple of nine. -/
def padTo9 (n : ℕ) : ℕ :=
  (9 - n % 9) % 9

/-! ## Surface Irradiance Estimator (`calculateBIPVPotential`, viewer.js 164–198) -/

/-- A mesh's geometry: the flat position buffer is optional, matching
`geometry.attributes.position` which may be absent. -/
structure MeshGeom where
  position : Option (List ℝ)

/-- A mesh as the estimator sees it: its geometry and the normal matrix that
`THREE.Matrix3().getNormalMatrix(child.matrixWorld)` produces for it.  The
derivation of the normal matrix from the world matrix happens inside three.js;
we take the resulting matrix as the mesh's datum. -/
structure Mesh where
  geometry : MeshGeom
  normalMatrix : Mat3

/-- viewer.js line 178: the representative normal,
`new THREE.Vector3(0, 1, 0).applyMatrix3(normalMatrix).normalize()`. -/
noncomputable def representativeNormal (m : Mesh) : Vec3 :=
  (m.normalMatrix.apply ⟨0, 1, 0⟩).normalize

/-- viewer.js line 181: `Math.max(0, normal.dot(sunDirection))`, where
`sunDirection` is the normalized sun-light position (line 180). -/
noncomputable def incidenceFactor (m : Mesh) (sunPos : Vec3) : ℝ :=
  max 0 ((representativeNormal m).dot sunPos.normalize)

/-- The fixed panel conversion efficiency (viewer.js line 184). -/
noncomputable def efficiency : ℝ := 0.15

/-- One mesh's contribution to the running total (viewer.js lines 170–193):
a mesh without a position attribute is skipped (the callback `return`s, adding
nothing); otherwise `ghi * surfaceArea * angle * efficiency` is added. -/
noncomputable def meshContribution (ghi : ℝ) (sunPos : Vec3) (m : Mesh) : ℝ :=
  match m.geometry.position with
  | none => 0
  | some buf => ghi * calculateSurfaceArea buf * incidenceFactor m sunPos * efficiency

/-- The Scene Total: `totalPotential` accumulated over the traversal. -/
noncomputable def totalPotential (ghi : ℝ) (sunPos : Vec3) (meshes : List Mesh) : ℝ :=
  (meshes.map (meshContribution ghi sunPos)).sum

/-- The mesh used in the C2 witness: a single triangle of area `10` with the
identity normal matrix. -/
def witnessMesh : Mesh :=
  ⟨⟨some [0, 0, 0, 4, 0, 0, 0, 5, 0]⟩, Mat3.id⟩

/-! ## GHI query parameter (`parseFloat(this.params.get('ghi')) || 5.0`,
viewer.js line 167) -/

/-- A JS number as far as this code can observe it: `NaN`, the infinities, or
a finite value.  The finite values the code manipulates all come from decimal
literals, so we carry them as rationals. -/
inductive JSNum where
  | nan : JSNum
  | inf : JSNum
  | negInf : JSNum
  | num : ℚ → JSNum
deriving DecidableEq

def digitVal (c : Char) : ℕ := c.toNat - 48

def digitsToNat (ds : List Char) : ℕ :=
  ds.foldl (fun n c => 10 * n + digitVal c) 0

def isJsWhitespace (c : Char) : Bool :=
  c == ' ' || c == '\t' || c == '\n' || c == '\r'

/-- The raw pieces `parseFloat` scans off the front of a string: sign,
`Infinity` flag, integer digits, fraction digits, exponent sign and digits. -/
structure FloatTok where
  neg : Bool
  isInf : Bool
  intDs : List Char
  fracDs : List Char
  expNeg : Bool
  expDs : List Char
deriving DecidableEq

/-- Scanning part of the JS builtin `parseFloat`: skip leading whitespace,
read an optional sign, then the longest prefix of the form
`digits [. digits] [e|E [sign] digits]` (or `Infinity`); `none` when no
digits are found (the `NaN` outcome).  Trailing garbage is ignored; an
exponent marker without digits is ignored. -/
def scanFloat (s : String) : Option FloatTok :=
  let cs := s.toList.dropWhile isJsWhitespace
  let sgnNeg : Bool := match cs with | '-' :: _ => true | _ => false
  let cs1 := match cs with
    | '+' :: r => r
    | '-' :: r => r
    | r => r
  if cs1.take 8 = "Infinity".toList then
    some ⟨sgnNeg, true, [], [], false, []⟩
  else
    let intDs := cs1.takeWhile Char.isDigit
    let r1 := cs1.dropWhile Char.isDigit
    let fracDs := match r1 with
      | '.' :: r => r.takeWhile Char.isDigit
      | _ => []
    let r2 := match r1 with
      | '.' :: r => r.dropWhile Char.isDigit
      | _ => r1
    if intDs.isEmpty && fracDs.isEmpty then none
    else
      match r2 with
      | c :: r3 =>
        if c == 'e' || c == 'E' then
          let eNeg : Bool := match r3 with | '-' :: _ => true | _ => false
          let r4 := match r3 with
            | '+' :: r => r
            | '-' :: r => r
            | r => r
          let eDs := r4.takeWhile Char.isDigit
          if eDs.isEmpty then some ⟨sgnNeg, false, intDs, fracDs, false, []⟩
          else some ⟨sgnNeg, false, intDs, fracDs, eNeg, eDs⟩
        else some ⟨sgnNeg, false, intDs, fracDs, false, []⟩
      | [] => some ⟨sgnNeg, false, intDs, fracDs, false, []⟩

/-- Numeric value of a scanned token. -/
def tokValue (t : FloatTok) : JSNum :=
  if t.isInf then
    if t.neg then JSNum.negInf else JSNum.inf
  else
    let mant : ℚ :=
      (digitsToNat t.intDs : ℚ) + (digitsToNat t.fracDs : ℚ) / (10 : ℚ) ^ t.fracDs.length
    let e : ℤ := if t.expNeg then -(digitsToNat t.expDs : ℤ) else (digitsToNat t.expDs : ℤ)
    let v : ℚ := mant * (10 : ℚ) ^ e
    JSNum.num (if t.neg then -v else v)

/-- Model of the JS builtin `parseFloat`. -/
def parseFloatJS (s : String) : JSNum :=
  match scanFloat s with
  | none => JSNum.nan
  | some t => tokValue t

/-- `parseFloat(this.params.get('ghi'))`: when the parameter is absent,
`URLSearchParams.get` returns `null`, and `parseFloat(null)` coerces its
argument to the string `"null"`, which parses to `NaN`. -/
def ghiParamRaw (p : Option String) : JSNum :=
  match p with
  | none => parseFloatJS "null"
  | some s => parseFloatJS s

/-- JS truthiness on numbers: `NaN`, `0` and `-0` are falsy. -/
def jsFalsy : JSNum → Bool
  | JSNum.nan => true
  | JSNum.num q => q == 0
  | _ => false

/-- `parseFloat(this.params.get('ghi')) || 5.0`. -/
def ghiUsed (p : Option String) : JSNum :=
  if jsFalsy (ghiParamRaw p) then JSNum.num 5 else ghiParamRaw p

/-- Numeric value carried into the energy computation.  `ghiUsed` never
produces `NaN` (see C9); infinities never arise from it either, so the
catch-all `0` is junk that is never reached downstream of `ghiUsed`. -/
noncomputable def jsNumToReal : JSNum → ℝ
  | JSNum.num q => (q : ℝ)
  | _ => 0

/-! ## GHI Retrieval (`fetchGHI`, client script lines 44–60) -/

/-- The innermost JSON object `ALLSKY_SFC_SW_DWN`: date keys mapped to daily
irradiance values (JSON numbers, carried as rationals). -/
structure GhiParamObj where
  allsky : Option (List (String × ℚ))

/-- The `properties` object, whose `parameter` member may be missing. -/
structure GhiProps where
  parameter : Option GhiParamObj

/-- A parsed response body; every level of the expected shape
`{properties: {parameter: {ALLSKY_SFC_SW_DWN: {date: number}}}}` may be
missing. -/
structure GhiJson where
  properties : Option GhiProps

/-- How the single `fetch` of `fetchGHI` can resolve. -/
inductive ApiOutcome where
  | netError
  | httpError
  | okMalformed
  | ok (body : GhiJson)

/-- `fetchGHI` (client script lines 44–60).  A rejected `fetch` lands in the
`catch` and returns `null`; a non-ok status logs and returns `null`; a body
that fails `response.json()` throws inside the `try` and returns `null`; a
missing intermediate property makes the chained access throw a `TypeError`,
also caught, returning `null`; a present chain with the date key absent
returns `undefined`.  `null` and `undefined` are both the absence signal and
are collapsed to `none`. -/
def fetchGHI (o : ApiOutcome) (date : String) : Option ℚ :=
  match o with
  | ApiOutcome.netError => none
  | ApiOutcome.httpError => none
  | ApiOutcome.okMalformed => none
  | ApiOutcome.ok body =>
    match body.properties with
    | none => none
    | some props =>
      match props.parameter with
      | none => none
      | some pobj =>
        match pobj.allsky with
        | none => none
        | some kv => kv.lookup date

/-! ## Upload gateway (`app.post('/upload')` and `storage`, viewer.js 238–260) -/

/-- Node `path.extname`, restricted to plain file names (no directory
separators): the suffix from the last `.`, or `""` when there is no `.` or
the only `.` is the leading character of a dotfile. -/
def extname (s : String) : String :=
  let cs := s.toList
  let tailLen := (cs.reverse.takeWhile (fun c => !(c == '.'))).length
  if tailLen = cs.length then ""
  else
    let dotIdx := cs.length - tailLen - 1
    if dotIdx = 0 then "" else (cs.drop dotIdx).asString

/-- What multer hands the filename callback: the client's original file name,
together with the value `Date.now()` takes when the callback runs. -/
structure UploadFile where
  originalname : String
  now : ℕ
deriving DecidableEq

inductive HttpResponse where
  | badRequest (body : String)
  | okJson (success : Bool) (filename : String)
deriving DecidableEq

/-- The stored filename (viewer.js line 243):
`Date.now() + path.extname(file.originalname)` — JS `+` on a number and a
string concatenates the decimal rendering of the number with the string. -/
def storageFilename (f : UploadFile) : String :=
  toString f.now ++ extname f.originalname

/-- The `POST /upload` handler (viewer.js lines 252–260): `400` with body
`"No file uploaded."` when `req.file` is absent, otherwise
`{success: true, filename: req.file.filename}`. -/
def uploadHandler (file : Option UploadFile) : HttpResponse :=
  match file with
  | none => HttpResponse.badRequest "No file uploaded."
  | some f => HttpResponse.okJson true (storageFilename f)

/-! ## Submit handler (client script lines 1–41) -/

/-- Observable steps of the submit handler, in the order the single-threaded
handler performs them. -/
inductive SubmitEvent where
  | ghiFetch
  | alertFail
  | uploadPost
  | navigate
deriving DecidableEq

/-- The submit handler as the ordered trace of its awaited steps.  The handler
first awaits `fetchGHI` (the `ghiFetch` event, resolving to `ghi`); then
`if (!ghi)` — true for the absence signal `none` and for the falsy value `0` —
it alerts and returns; otherwise it awaits `fetch('/upload')` (`uploadPost`),
and only if `response.ok` does it assign `window.location.href`
(`navigate`). -/
def submitEvents (ghi : Option ℚ) (uploadOk : Bool) : List SubmitEvent :=
  SubmitEvent.ghiFetch ::
    (match ghi with
     | none => [SubmitEvent.alertFail]
     | some v =>
       if v = 0 then [SubmitEvent.alertFail]
       else SubmitEvent.uploadPost ::
         (if uploadOk then [SubmitEvent.navigate] else []))

theorem Vec3.ext_iff {a b : Vec3} : a = b ↔ a.x = b.x ∧ a.y = b.y ∧ a.z = b.z := by
  cases a; cases b; simp

/-- three.js computes the cross product around vertex `b`; this equals the
spec's cross product around vertex `a`. -/
theorem cross_around_b_eq (a b c : Vec3) :
    (c.sub b).cross (a.sub b) = (b.sub a).cross (c.sub a) := by
  simp only [Vec3.ext_iff, Vec3.sub, Vec3.cross]
  refine ⟨by ring, by ring, by ring⟩

theorem triangleGetArea_eq_spec (a b c : Vec3) :
    triangleGetArea a b c = specTriangleArea a b c := by
  unfold triangleGetArea specTriangleArea
  rw [cross_around_b_eq]
  ring

theorem flattenTris_cons (v1 v2 v3 : Vec3) (ts : List (Vec3 × Vec3 × Vec3)) :
    flattenTris ((v1, v2, v3) :: ts) =
      v1.x :: v1.y :: v1.z :: v2.x :: v2.y :: v2.z :: v3.x :: v3.y :: v3.z ::
        flattenTris ts := by
  simp [flattenTris]

/-- Stepping the area loop over one complete group of nine values. -/
theorem calculateSurfaceArea_cons9 (a b c d e f g h i : ℝ) (rest : List ℝ) :
    calculateSurfaceArea (a :: b :: c :: d :: e :: f :: g :: h :: i :: rest) =
      triangleGetArea ⟨a, b, c⟩ ⟨d, e, f⟩ ⟨g, h, i⟩ + calculateSurfaceArea rest := by
  rw [calculateSurfaceArea]
  simp [posGet]

theorem calculateSurfaceArea_nil : calculateSurfaceArea [] = 0 := by
  rw [calculateSurfaceArea]

/-- C1: on a buffer laid out as consecutive triangles, `calculateSurfaceArea`
returns the sum of `0.5 × |(v2 − v1) × (v3 − v1)|` over the triangles; it
returns `0` on the empty buffer; and a single right triangle with legs of
length `L` along two axes yields `L² / 2`. -/
theorem c1_surface_area_spec :
    (∀ ts : List (Vec3 × Vec3 × Vec3),
      calculateSurfaceArea (flattenTris ts)
        = (ts.map fun t => specTriangleArea t.1 t.2.1 t.2.2).sum)
    ∧ calculateSurfaceArea [] = 0
    ∧ ∀ L : ℝ, calculateSurfaceArea [0, 0, 0, L, 0, 0, 0, L, 0] = L ^ 2 / 2 := by
  refine ⟨?_, calculateSurfaceArea_nil, ?_⟩
  · intro ts
    induction ts with
    | nil => simp [flattenTris, calculateSurfaceArea_nil]
    | cons t ts ih =>
        obtain ⟨v1, v2, v3⟩ := t
        rw [flattenTris_cons, calculateSurfaceArea_cons9, triangleGetArea_eq_spec]
        simp [ih]
  · intro L
    rw [calculateSurfaceArea_cons9, calculateSurfaceArea_nil]
    have hcross :
        ((⟨0, L, 0⟩ : Vec3).sub ⟨L, 0, 0⟩).cross ((⟨0, 0, 0⟩ : Vec3).sub ⟨L, 0, 0⟩)
          = ⟨0, 0, L * L⟩ := by
      simp only [Vec3.ext_iff, Vec3.sub, Vec3.cross]
      refine ⟨by ring, by ring, by ring⟩
    rw [triangleGetArea, hcross]
    have hlen : (⟨0, 0, L * L⟩ : Vec3).length = L ^ 2 := by
      rw [Vec3.length]
      have : (0 : ℝ) * 0 + 0 * 0 + L * L * (L * L) = (L ^ 2) ^ 2 := by ring
      rw [this, Real.sqrt_sq (sq_nonneg L)]
    rw [hlen]
    ring

/-- Reading past appended zero padding gives the same value as reading past the
end of the buffer: both come out `0`. -/
theorem posGet_append_replicate_zero (l : List ℝ) (k i : ℕ) :
    posGet (l ++ List.replicate k 0) i = posGet l i := by
  unfold posGet
  rcases lt_or_ge i l.length with h | h
  · rw [List.getD_eq_getElem?_getD, List.getD_eq_getElem?_getD,
      List.getElem?_append_left h]
  · rw [List.getD_eq_getElem?_getD, List.getD_eq_getElem?_getD,
      List.getElem?_append_right h, List.getElem?_eq_none h,
      List.getElem?_replicate]
    split <;> rfl

/-- Unfolding the area loop on any nonempty buffer, reads expressed over the
tail. -/
theorem calculateSurfaceArea_cons (x : ℝ) (rest : List ℝ) :
    calculateSurfaceArea (x :: rest) =
      triangleGetArea
        ⟨x, posGet rest 0, posGet rest 1⟩
        ⟨posGet rest 2, posGet rest 3, posGet rest 4⟩
        ⟨posGet rest 5, posGet rest 6, posGet rest 7⟩
      + calculateSurfaceArea (rest.drop 8) := by
  rw [calculateSurfaceArea]
  simp [posGet]

/-- A degenerate triangle at the origin contributes no area. -/
theorem triangleGetArea_zero :
    triangleGetArea ⟨0, 0, 0⟩ ⟨0, 0, 0⟩ ⟨0, 0, 0⟩ = 0 := by
  simp [triangleGetArea, Vec3.sub, Vec3.cross, Vec3.length]

/-- A buffer of zeros has zero total area. -/
theorem calculateSurfaceArea_replicate_zero (k : ℕ) :
    calculateSurfaceArea (List.replicate k (0 : ℝ)) = 0 := by
  induction k using Nat.strong_induction_on with
  | _ k ih =>
    cases k with
    | zero => simpa using calculateSurfaceArea_nil
    | succ k =>
      rw [List.replicate_succ, calculateSurfaceArea_cons]
      have hget : ∀ i, posGet (List.replicate k (0 : ℝ)) i = 0 := by
        intro i
        unfold posGet
        rw [List.getD_eq_getElem?_getD, List.getElem?_replicate]
        split <;> rfl
      simp only [hget, List.drop_replicate]
      rw [ih (k - 8) (by omega), triangleGetArea_zero]
      ring

/-- Appending zeros to a position buffer never changes the computed area:
a full group of zeros is a degenerate triangle of area `0`, and padding the
final partial group with zeros matches what the loop already reads for the
missing entries. -/
theorem calculateSurfaceArea_append_aux (n : ℕ) :
    ∀ (l : List ℝ), l.length ≤ n → ∀ k,
      calculateSurfaceArea (l ++ List.replicate k 0) = calculateSurfaceArea l := by
  induction n with
  | zero =>
    intro l hl k
    have : l = [] := List.length_eq_zero.mp (Nat.le_zero.mp hl)
    subst this
    rw [List.nil_append, calculateSurfaceArea_replicate_zero, calculateSurfaceArea_nil]
  | succ n ih =>
    intro l hl k
    cases l with
    | nil => rw [List.nil_append, calculateSurfaceArea_replicate_zero, calculateSurfaceArea_nil]
    | cons x rest =>
      rw [List.cons_append, calculateSurfaceArea_cons, calculateSurfaceArea_cons]
      have hreads : ∀ i, posGet (rest ++ List.replicate k 0) i = posGet rest i :=
        fun i => posGet_append_replicate_zero rest k i
      simp only [hreads]
      have hdrop : (rest ++ List.replicate k 0).drop 8 =
          rest.drop 8 ++ List.replicate (k - (8 - rest.length)) 0 := by
        rw [List.drop_append_eq_append_drop, List.drop_replicate]
      have hlen : (rest.drop 8).length ≤ n := by
        simp only [List.length_cons] at hl
        simp only [List.length_drop]
        omega
      rw [hdrop, ih (rest.drop 8) hlen]

/-- Appending zeros to a position buffer never changes the computed area. -/
theorem calculateSurfaceArea_append_replicate_zero (l : List ℝ) (k : ℕ) :
    calculateSurfaceArea (l ++ List.replicate k 0) = calculateSurfaceArea l :=
  calculateSurfaceArea_append_aux l.length l le_rfl k

/-- C3 counterexample: the six-value buffer `[1,0,0, 0,1,0]` (a trailing
partial group and nothing else).  Truncating to the greatest multiple of nine
leaves the empty buffer, of area `0`; the code instead reads the three missing
components as `0` and sums the area of the triangle `(1,0,0),(0,1,0),(0,0,0)`,
which is `1/2`. -/
theorem c3_counterexample :
    calculateSurfaceArea [1, 0, 0, 0, 1, 0] ≠ calculateSurfaceArea ([] : List ℝ) ∧
    calculateSurfaceArea [1, 0, 0, 0, 1, 0] = 1 / 2 := by
  have harea : calculateSurfaceArea [1, 0, 0, 0, 1, 0] = 1 / 2 := by
    rw [calculateSurfaceArea_cons]
    have h0 : calculateSurfaceArea (List.drop 8 [(0:ℝ), 0, 0, 1, 0]) = 0 := by
      simp [calculateSurfaceArea_nil]
    rw [h0]
    have hcross :
        ((⟨0, 0, 0⟩ : Vec3).sub ⟨0, 1, 0⟩).cross ((⟨1, 0, 0⟩ : Vec3).sub ⟨0, 1, 0⟩)
          = ⟨0, 0, 1⟩ := by
      simp only [Vec3.ext_iff, Vec3.sub, Vec3.cross]
      refine ⟨by ring, by ring, by ring⟩
    simp only [posGet, List.getD_cons_zero, List.getD_cons_succ, List.getD_nil]
    rw [triangleGetArea, hcross]
    have hlen : (⟨0, 0, 1⟩ : Vec3).length = 1 := by
      rw [Vec3.length]
      norm_num
    rw [hlen]
    ring
  refine ⟨?_, harea⟩
  rw [harea, calculateSurfaceArea_nil]
  norm_num

/-- C3 amended: for a buffer whose length is not a multiple of nine, the code
raises no error, but the trailing partial group is not ignored: each missing
component is read as `0`, so the result equals the area of the buffer
zero-padded to the next multiple of nine (which can differ from the area of
the buffer truncated to the greatest multiple of nine). -/
theorem c3_trailing_group_zero_padded (l : List ℝ) :
    calculateSurfaceArea l =
      calculateSurfaceArea (l ++ List.replicate (padTo9 l.length) 0) := by
  rw [calculateSurfaceArea_append_replicate_zero]

/-- C2: for a mesh with a position attribute the contribution is
`GHI × area × incidence factor × 0.15`; the incidence factor is never
negative; a representative normal perpendicular to the sun direction gives a
contribution of exactly `0`; and `GHI = 5`, area `10`, incidence factor `1`
give `7.5`. -/
theorem c2_energy_contribution (m : Mesh) (sunPos : Vec3) (ghi : ℝ)
    (buf : List ℝ) (hpos : m.geometry.position = some buf) :
    meshContribution ghi sunPos m
      = ghi * calculateSurfaceArea buf * incidenceFactor m sunPos * 0.15
    ∧ 0 ≤ incidenceFactor m sunPos
    ∧ ((representativeNormal m).dot sunPos.normalize = 0 →
        meshContribution ghi sunPos m = 0)
    ∧ (ghi = 5 → calculateSurfaceArea buf = 10 → incidenceFactor m sunPos = 1 →
        meshContribution ghi sunPos m = 7.5) := by
  have hcontrib : meshContribution ghi sunPos m
      = ghi * calculateSurfaceArea buf * incidenceFactor m sunPos * efficiency := by
    unfold meshContribution
    rw [hpos]
  refine ⟨hcontrib, le_max_left _ _, ?_, ?_⟩
  · intro hperp
    rw [hcontrib]
    unfold incidenceFactor
    rw [hperp]
    simp
  · intro hghi harea hangle
    rw [hcontrib, hghi, harea, hangle]
    unfold efficiency
    norm_num

theorem witnessMesh_area : calculateSurfaceArea [0, 0, 0, 4, 0, 0, 0, 5, 0] = 10 := by
  rw [calculateSurfaceArea_cons9, calculateSurfaceArea_nil]
  have hcross :
      ((⟨0, 5, 0⟩ : Vec3).sub ⟨4, 0, 0⟩).cross ((⟨0, 0, 0⟩ : Vec3).sub ⟨4, 0, 0⟩)
        = ⟨0, 0, 20⟩ := by
    simp only [Vec3.ext_iff, Vec3.sub, Vec3.cross]
    refine ⟨by ring, by ring, by ring⟩
  rw [triangleGetArea, hcross]
  have hlen : (⟨0, 0, 20⟩ : Vec3).length = 20 := by
    rw [Vec3.length]
    have : (0 : ℝ) * 0 + 0 * 0 + 20 * 20 = 20 ^ 2 := by ring
    rw [this, Real.sqrt_sq (by norm_num : (0:ℝ) ≤ 20)]
  rw [hlen]
  ring

theorem normalize_unitY : (⟨0, 1, 0⟩ : Vec3).normalize = ⟨0, 1, 0⟩ := by
  have hlen : (⟨0, 1, 0⟩ : Vec3).length = 1 := by
    rw [Vec3.length]
    norm_num
  unfold Vec3.normalize
  rw [hlen]
  norm_num

theorem witnessMesh_incidence : incidenceFactor witnessMesh ⟨0, 1, 0⟩ = 1 := by
  have happly : witnessMesh.normalMatrix.apply ⟨0, 1, 0⟩ = ⟨0, 1, 0⟩ := by
    simp only [witnessMesh, Mat3.id, Mat3.apply, Vec3.dot, Vec3.ext_iff]
    norm_num
  unfold incidenceFactor representativeNormal
  rw [happly, normalize_unitY]
  simp [Vec3.dot]

/-- C2 witness: the concrete instance GHI `5`, a triangle of area `10`, the
identity normal matrix and a sun straight up: contribution `7.5`. -/
theorem c2_energy_contribution_witness :
    meshContribution 5 ⟨0, 1, 0⟩ witnessMesh = 7.5 := by
  have h := c2_energy_contribution witnessMesh ⟨0, 1, 0⟩ 5
    [0, 0, 0, 4, 0, 0, 0, 5, 0] rfl
  exact h.2.2.2 rfl witnessMesh_area witnessMesh_incidence

/-- C5: a scene with no meshes totals exactly `0`, and a mesh without a
position attribute is skipped: it contributes nothing to the Scene Total. -/
theorem c5_skip_and_empty (ghi : ℝ) (sunPos : Vec3) (m : Mesh) (ms : List Mesh)
    (hnone : m.geometry.position = none) :
    totalPotential ghi sunPos [] = 0
    ∧ totalPotential ghi sunPos (m :: ms) = totalPotential ghi sunPos ms := by
  constructor
  · simp [totalPotential]
  · unfold totalPotential
    simp only [List.map_cons, List.sum_cons]
    have : meshContribution ghi sunPos m = 0 := by
      unfold meshContribution
      rw [hnone]
    rw [this, zero_add]

/-- C5 witness: one mesh without geometry, total `0`. -/
theorem c5_skip_and_empty_witness :
    totalPotential 5 ⟨0, 1, 0⟩ [⟨⟨none⟩, Mat3.id⟩] = 0 := by
  have h := c5_skip_and_empty 5 ⟨0, 1, 0⟩ ⟨⟨none⟩, Mat3.id⟩ [] rfl
  rw [h.2]
  exact (c5_skip_and_empty 5 ⟨0, 1, 0⟩ ⟨⟨none⟩, Mat3.id⟩ [] rfl).1

/-- C4: an absent or unparsable `ghi` query parameter is replaced by `5.0`
with no error, and the scene total is the one computed with GHI `5`. -/
theorem c4_ghi_default (s : String) (h : parseFloatJS s = JSNum.nan) :
    ghiUsed none = JSNum.num 5
    ∧ ghiUsed (some s) = JSNum.num 5
    ∧ ∀ (sunPos : Vec3) (ms : List Mesh),
        totalPotential (jsNumToReal (ghiUsed none)) sunPos ms
          = totalPotential 5 sunPos ms := by
  have hnull : parseFloatJS "null" = JSNum.nan := by
    unfold parseFloatJS
    rw [show scanFloat "null" = none from by decide]
  have h1 : ghiUsed none = JSNum.num 5 := by
    simp only [ghiUsed, ghiParamRaw, hnull]
    rfl
  refine ⟨h1, ?_, ?_⟩
  · simp only [ghiUsed, ghiParamRaw, h]
    rfl
  · intro sunPos ms
    rw [h1]
    norm_num [jsNumToReal]

theorem parseFloat_abc : parseFloatJS "abc" = JSNum.nan := by
  unfold parseFloatJS
  rw [show scanFloat "abc" = none from by decide]

/-- C4 witness: the unparsable string `"abc"`. -/
theorem c4_ghi_default_witness :
    parseFloatJS "abc" = JSNum.nan ∧ ghiUsed (some "abc") = JSNum.num 5 :=
  ⟨parseFloat_abc, (c4_ghi_default "abc" parseFloat_abc).2.1⟩

/-- C9: a `ghi` string parsing to `0` is also replaced by `5.0` (JS `||`
tests truthiness, and `0` is falsy), and the GHI value the computation uses
is never `0` and never `NaN`. -/
theorem c9_ghi_never_zero (s : String) (h : parseFloatJS s = JSNum.num 0) :
    ghiUsed (some s) = JSNum.num 5
    ∧ ∀ p : Option String, ghiUsed p ≠ JSNum.num 0 ∧ ghiUsed p ≠ JSNum.nan := by
  constructor
  · simp only [ghiUsed, ghiParamRaw, h]
    rfl
  · intro p
    unfold ghiUsed
    cases hx : ghiParamRaw p with
    | nan => simp [jsFalsy]
    | inf => simp [jsFalsy]
    | negInf => simp [jsFalsy]
    | num q =>
      by_cases hq : q = 0
      · subst hq
        simp [jsFalsy]
      · have hfalse : jsFalsy (JSNum.num q) = false := by
          simp [jsFalsy, hq]
        rw [hfalse]
        simp [hq]

theorem parseFloat_zero : parseFloatJS "0" = JSNum.num 0 := by
  unfold parseFloatJS
  rw [show scanFloat "0" = some ⟨false, false, [Char.ofNat 48], [], false, []⟩
    from by decide]
  dsimp only
  unfold tokValue
  dsimp only
  rw [show digitsToNat [Char.ofNat 48] = 0 from by decide,
    show digitsToNat [] = 0 from rfl]
  norm_num

/-- C9 witness: the string `"0"` parses to `0` and still yields GHI `5`. -/
theorem c9_ghi_never_zero_witness : ghiUsed (some "0") = JSNum.num 5 :=
  (c9_ghi_never_zero "0" parseFloat_zero).1

/-- C6: every failure outcome of the GHI request — network error, non-success
status, malformed JSON, a missing level of the expected shape, or a response
missing the requested date key — yields the absence signal `none` rather than
an exception. -/
theorem c6_fetchGHI_failure_absence (date : String) (kv : List (String × ℚ))
    (hmiss : kv.lookup date = none) :
    fetchGHI ApiOutcome.netError date = none
    ∧ fetchGHI ApiOutcome.httpError date = none
    ∧ fetchGHI ApiOutcome.okMalformed date = none
    ∧ fetchGHI (ApiOutcome.ok ⟨none⟩) date = none
    ∧ fetchGHI (ApiOutcome.ok ⟨some ⟨none⟩⟩) date = none
    ∧ fetchGHI (ApiOutcome.ok ⟨some ⟨some ⟨none⟩⟩⟩) date = none
    ∧ fetchGHI (ApiOutcome.ok ⟨some ⟨some ⟨some kv⟩⟩⟩) date = none := by
  refine ⟨rfl, rfl, rfl, rfl, rfl, rfl, ?_⟩
  simp only [fetchGHI]
  exact hmiss

/-- C6 witness: a body holding only the date `20240101`, queried for
`20240102`. -/
theorem c6_fetchGHI_failure_absence_witness :
    fetchGHI (ApiOutcome.ok ⟨some ⟨some ⟨some [("20240101", 3)]⟩⟩⟩) "20240102"
      = none :=
  (c6_fetchGHI_failure_absence "20240102" [("20240101", 3)] (by decide)).2.2.2.2.2.2

theorem toDigitsCore_length_le (b : ℕ) :
    ∀ (fuel n : ℕ) (ds : List Char),
      ds.length ≤ (Nat.toDigitsCore b fuel n ds).length := by
  intro fuel
  induction fuel with
  | zero => intro n ds; exact le_refl _
  | succ fuel ih =>
    intro n ds
    rw [Nat.toDigitsCore]
    split
    · simp
    · exact le_trans (by simp) (ih (n / b) (Nat.digitChar (n % b) :: ds))

theorem toDigits_ne_nil (b n : ℕ) : Nat.toDigits b n ≠ [] := by
  unfold Nat.toDigits
  intro hnil
  have h := toDigitsCore_length_le b (n + 1) n []
  rw [Nat.toDigitsCore] at hnil h
  split at hnil
  · exact absurd hnil (by simp)
  · rw [hnil] at h
    have h2 := toDigitsCore_length_le b n (n / b) [Nat.digitChar (n % b)]
    rw [hnil] at h2
    simp at h2

theorem natRepr_ne_empty (n : ℕ) : Nat.repr n ≠ "" := by
  unfold Nat.repr
  intro h
  have : (Nat.toDigits 10 n).asString.length = ("" : String).length := by rw [h]
  simp only [List.asString, String.length] at this
  exact toDigits_ne_nil 10 n (List.length_eq_zero.mp this)

/-- C7 counterexample to "filename distinct from the original upload name":
a file whose original name has no extension and happens to be the decimal
rendering of the upload timestamp is stored under exactly its original name.
The handler's response filename equals `originalname`. -/
theorem c7_upload_counterexample :
    uploadHandler (some ⟨"1730000000000", 1730000000000⟩)
      = HttpResponse.okJson true "1730000000000"
    ∧ storageFilename ⟨"1730000000000", 1730000000000⟩
      = (⟨"1730000000000", 1730000000000⟩ : UploadFile).originalname := by
  constructor <;> decide

/-- C7 amended: the handler answers `400` with body `"No file uploaded."`
exactly when the file is absent; otherwise `200` with
`{success: true, filename}` where the filename is the decimal timestamp
followed by the original extension.  It is always non-empty, and it differs
from the original upload name whenever the original name is not itself the
timestamp rendering followed by its own extension. -/
theorem c7_upload_response (f : UploadFile)
    (hshape : f.originalname ≠ toString f.now ++ extname f.originalname) :
    uploadHandler none = HttpResponse.badRequest "No file uploaded."
    ∧ uploadHandler (some f)
        = HttpResponse.okJson true (toString f.now ++ extname f.originalname)
    ∧ toString f.now ++ extname f.originalname ≠ ""
    ∧ toString f.now ++ extname f.originalname ≠ f.originalname := by
  refine ⟨rfl, rfl, ?_, fun h => hshape h.symm⟩
  intro hempty
  have hlen : (toString f.now ++ extname f.originalname).length = 0 := by
    rw [hempty]
    rfl
  rw [String.length_append] at hlen
  have : Nat.repr f.now = "" := by
    have : (toString f.now).length = 0 := by omega
    show Nat.repr f.now = ""
    have hrepr : toString f.now = Nat.repr f.now := rfl
    rw [hrepr] at this
    cases hr : Nat.repr f.now with
    | mk data =>
      rw [hr] at this
      simp only [String.length] at this
      rw [List.length_eq_zero.mp this]
  exact natRepr_ne_empty f.now this

/-- C7 witness: a typical upload, `city.glb` stored at timestamp
`1730000000000`. -/
theorem c7_upload_response_witness :
    toString (1730000000000 : ℕ) ++ extname "city.glb" ≠ "city.glb" :=
  (c7_upload_response ⟨"city.glb", 1730000000000⟩ (by decide)).2.2.2

/-- C8: the three steps are strictly sequential — the GHI fetch is the first
event; the upload request appears only after it; navigation appears only
after (and with) a successful upload; and when GHI retrieval yields the
absence signal the trace is fetch-then-alert with no upload at all. -/
theorem c8_submit_sequencing (g : Option ℚ) (u : Bool) :
    (submitEvents g u).head? = some SubmitEvent.ghiFetch
    ∧ (SubmitEvent.uploadPost ∈ submitEvents g u →
        (submitEvents g u).indexOf SubmitEvent.ghiFetch
          < (submitEvents g u).indexOf SubmitEvent.uploadPost)
    ∧ (SubmitEvent.navigate ∈ submitEvents g u →
        u = true
        ∧ SubmitEvent.uploadPost ∈ submitEvents g u
        ∧ (submitEvents g u).indexOf SubmitEvent.uploadPost
            < (submitEvents g u).indexOf SubmitEvent.navigate)
    ∧ (g = none →
        submitEvents g u = [SubmitEvent.ghiFetch, SubmitEvent.alertFail]
        ∧ SubmitEvent.uploadPost ∉ submitEvents g u) := by
  match g with
  | none =>
    refine ⟨rfl, ?_, ?_, ?_⟩ <;> simp [submitEvents]
  | some v =>
    by_cases hv : v = 0
    · subst hv
      refine ⟨rfl, ?_, ?_, ?_⟩ <;> simp [submitEvents]
    · cases u <;>
        refine ⟨rfl, ?_, ?_, ?_⟩ <;>
        simp [submitEvents, hv, List.indexOf_cons]

/-- C8 witness: GHI retrieval fails (`none`); the trace is exactly
fetch-then-alert, before any upload. -/
theorem c8_submit_sequencing_witness :
    submitEvents none true = [SubmitEvent.ghiFetch, SubmitEvent.alertFail] :=
  (((c8_submit_sequencing none true).2.2.2) rfl).1

/-- C10: a successful response whose value for the date is `0` is
indistinguishable from failure: `!ghi` is true for `0`, so the handler
alerts and aborts before the upload, and the viewer is never reached. -/
theorem c10_zero_ghi_aborts (u : Bool) (o : ApiOutcome) (d : String)
    (hz : fetchGHI o d = some 0) :
    submitEvents (fetchGHI o d) u = [SubmitEvent.ghiFetch, SubmitEvent.alertFail]
    ∧ SubmitEvent.uploadPost ∉ submitEvents (fetchGHI o d) u
    ∧ SubmitEvent.navigate ∉ submitEvents (fetchGHI o d) u := by
  rw [hz]
  refine ⟨?_, ?_, ?_⟩ <;> simp [submitEvents]

/-- C10 witness: the API really answers `0` for the requested date. -/
theorem c10_zero_ghi_aborts_witness :
    submitEvents
        (fetchGHI (ApiOutcome.ok ⟨some ⟨some ⟨some [("20240101", 0)]⟩⟩⟩) "20240101")
        true
      = [SubmitEvent.ghiFetch, SubmitEvent.alertFail] :=
  (c10_zero_ghi_aborts true (ApiOutcome.ok ⟨some ⟨some ⟨some [("20240101", 0)]⟩⟩⟩)
    "20240101" (by decide)).1

end BIPV
